import Mathlib

/-!
Shallow embedding of the gauntlet launcher's plugin widget container,
top-level view state machine, preference gating and search limiting,
translated from the Rust sources
(`rust/client/src/ui/widget_container.rs`, `rust/client/src/ui/state/mod.rs`,
`rust/server/src/plugins/js/preferences.rs`, `src/search.rs`).
Pieces of the repository that are referenced from those files but whose
source is not available (widget.rs, scroll_handle.rs, main_view.rs, and the
tantivy search library) are modelled from the specification; their doc
comments say so explicitly.
-/

set_option autoImplicit false

namespace Gauntlet

/-- Widget identifier (`UiWidgetId`), an unsigned integer unique within one tree. -/
abbrev UiWidgetId := Nat

/-- Opaque plugin identifier (`common::model::PluginId`), a wrapped string. -/
structure PluginId where
  toRaw : String
deriving DecidableEq, Repr

/-- Opaque entrypoint identifier (`common::model::EntrypointId`), a wrapped string. -/
structure EntrypointId where
  toRaw : String
deriving DecidableEq, Repr

/-- Physical keyboard shortcut (`common::model::PhysicalShortcut`); its internals
are irrelevant to the verified operations, modelled as a wrapped string. -/
structure PhysicalShortcut where
  key : String
deriving DecidableEq, Repr

/-- Modelled from the spec: a `SearchResult` is "a match surfaced by the (external)
search collaborator; opaque to this core beyond being focusable/orderable". -/
structure SearchResult where
  plugin_id : PluginId
  entrypoint_id : EntrypointId
deriving DecidableEq, Repr

/-- Binary image data (`bytes::Bytes`), modelled as a byte list. -/
abbrev Bytes := List Nat

/-- Modelled from the spec: a widget node of the declarative tree — "each node has
a WidgetId, a kind tag, properties, and children" (widget.rs is not part of the
provided sources; properties are irrelevant to the verified operations). -/
inductive WidgetNode where
  | node (id : UiWidgetId) (kind : String) (children : List WidgetNode)
deriving Repr

/-- Modelled from the spec: `RootWidget` is "a tree of widget nodes". -/
abbrev RootWidget := WidgetNode

/-- Modelled from the spec: `WidgetState` / `ComponentWidgetState` is "a tagged
union, one variant per widget kind that carries mutable UI state (text-input
contents, selected row, toggle value, scroll/focus cursor)". -/
inductive ComponentWidgetState where
  | textField (value : String)
  | checkbox (value : Bool)
  | selectedRow (row : Option Nat)
  | stateless
deriving DecidableEq, Repr

/-- Modelled from the spec: the default `WidgetState` a reconciliation pass
assigns to a widget of a given kind when the id is new. -/
def defaultState (kind : String) : ComponentWidgetState :=
  match kind with
  | "text_field" => .textField ""
  | "checkbox" => .checkbox false
  | "list" => .selectedRow none
  | _ => .stateless

/-- The per-widget state map `HashMap<UiWidgetId, ComponentWidgetState>`,
modelled as an association list whose operations keep keys unique. -/
abbrev StateMap := List (UiWidgetId × ComponentWidgetState)

/-- Map lookup (`HashMap::get`): first entry with the given key. -/
def lookupS : StateMap → UiWidgetId → Option ComponentWidgetState
  | [], _ => none
  | (k, v) :: rest, j => if k = j then some v else lookupS rest j

/-- Map insertion (`HashMap::insert`): replace the value at an existing key,
otherwise append a new entry. -/
def insertS : StateMap → UiWidgetId → ComponentWidgetState → StateMap
  | [], k, v => [(k, v)]
  | (k', v') :: rest, k, v =>
    if k' = k then (k', v) :: rest else (k', v') :: insertS rest k v

/-- The `state.entry(key)` match of `replace_view`: on `Entry::Occupied` the
value is overwritten, on `Entry::Vacant` nothing happens. -/
def updateOccupied : StateMap → UiWidgetId → ComponentWidgetState → StateMap
  | [], _, _ => []
  | (k', v') :: rest, k, v =>
    if k' = k then (k', v) :: rest else (k', v') :: updateOccupied rest k v

/-- All `(id, kind)` pairs of the nodes of a widget tree, in preorder. -/
def WidgetNode.nodes : WidgetNode → List (UiWidgetId × String)
  | .node i k cs => (i, k) :: nodesList cs
where
  /-- Nodes of a forest, left to right. -/
  nodesList : List WidgetNode → List (UiWidgetId × String)
    | [] => []
    | c :: cs => c.nodes ++ nodesList cs

/-- The id set of a widget tree. -/
def treeIds (w : RootWidget) : List UiWidgetId :=
  w.nodes.map Prod.fst

/-- Modelled from the spec: `create_state` (declared in widget.rs, which is not
part of the provided sources) — "build a fresh map with a default WidgetState
for every id present in the new tree". -/
def create_state (w : RootWidget) : StateMap :=
  w.nodes.foldl (fun m p => insertS m p.1 (defaultState p.2)) []

/-- The `for (key, value) in old_state` loop of `replace_view`: every entry of
the old state overwrites the corresponding occupied entry of the new map;
vacant keys are skipped. -/
def mergeOldState (old fresh : StateMap) : StateMap :=
  old.foldl (fun m p => updateOccupied m p.1 p.2) fresh

/-- Modelled from the spec: the outbound view event (`UiViewEvent`) delivered
to the owning plugin — "{widget id, event payload}". -/
structure UiViewEvent where
  widget_id : UiWidgetId
  event_name : String
deriving DecidableEq, Repr

/-- Modelled from the spec: a native interaction (`ComponentWidgetEvent`,
declared in widget.rs, which is not part of the provided sources) — "a native
interaction tagged with a WidgetId and a widget-kind-specific payload (text
changed, clicked, key pressed)". -/
inductive ComponentWidgetEvent where
  | textChanged (id : UiWidgetId) (text : String)
  | clicked (id : UiWidgetId)
  | toggled (id : UiWidgetId) (value : Bool)
deriving DecidableEq, Repr

/-- The `widget_id()` accessor of `ComponentWidgetEvent`. -/
def ComponentWidgetEvent.widget_id : ComponentWidgetEvent → UiWidgetId
  | .textChanged i _ => i
  | .clicked i => i
  | .toggled i _ => i

/-- Modelled from the spec: `ComponentWidgetEvent::handle` (declared in
widget.rs, which is not part of the provided sources) — "a pure transition
`(event, old_state) -> (new_state, optional outbound event)`"; typing events
update state without an outbound event (the source's TODO notes they are
ignored), clicks and toggles produce one outbound event. -/
def ComponentWidgetEvent.handle :
    ComponentWidgetEvent → PluginId → ComponentWidgetState →
      ComponentWidgetState × Option UiViewEvent
  | .textChanged _ text, _, _ => (.textField text, none)
  | .clicked i, _, st => (st, some ⟨i, "click"⟩)
  | .toggled i value, _, _ => (.checkbox value, some ⟨i, "toggle"⟩)

/-- The container of `widget_container.rs`: the installed tree, the per-widget
state map, the image assets and the identifying metadata of the plugin and
entrypoint that produced the last render. -/
structure PluginWidgetContainer where
  root_widget : Option RootWidget
  state : StateMap
  images : List (UiWidgetId × Bytes)
  plugin_id : Option PluginId
  plugin_name : Option String
  entrypoint_id : Option EntrypointId
  entrypoint_name : Option String

/-- `PluginWidgetContainer::new`: empty container, no metadata. -/
def PluginWidgetContainer.new : PluginWidgetContainer :=
  { root_widget := none
    state := []
    images := []
    plugin_id := none
    plugin_name := none
    entrypoint_id := none
    entrypoint_name := none }

/-- `PluginWidgetContainer::get_plugin_id`: unwraps the stored option with
`expect`; the panic on `None` is modelled by returning `none`. -/
def get_plugin_id (c : PluginWidgetContainer) : Option PluginId :=
  c.plugin_id

/-- `PluginWidgetContainer::get_entrypoint_id`: unwraps the stored option with
`expect`; the panic on `None` is modelled by returning `none`. -/
def get_entrypoint_id (c : PluginWidgetContainer) : Option EntrypointId :=
  c.entrypoint_id

/-- `PluginWidgetContainer::replace_view`: store the metadata and images, build
the fresh default state for the new tree, splice in the old values for every
id that survives, and install the new tree. -/
def replace_view (c : PluginWidgetContainer) (container : RootWidget)
    (images : List (UiWidgetId × Bytes)) (plugin_id : PluginId)
    (plugin_name : String) (entrypoint_id : EntrypointId)
    (entrypoint_name : String) : PluginWidgetContainer :=
  { root_widget := some container
    state := mergeOldState c.state (create_state container)
    images := images
    plugin_id := some plugin_id
    plugin_name := some plugin_name
    entrypoint_id := some entrypoint_id
    entrypoint_name := some entrypoint_name }

/-- `PluginWidgetContainer::handle_event`: look up the state for the event's
widget id; on a miss do nothing; on a hit apply the widget-kind transition,
write the new state back and return the optional outbound event. -/
def handle_event (c : PluginWidgetContainer) (plugin_id : PluginId)
    (event : ComponentWidgetEvent) : PluginWidgetContainer × Option UiViewEvent :=
  match lookupS c.state event.widget_id with
  | none => (c, none)
  | some st =>
    let r := event.handle plugin_id st
    ({ c with state := updateOccupied c.state event.widget_id r.1 }, r.2)

/-- Modelled from the spec: `ScrollHandle` (scroll_handle.rs is not part of the
provided sources) — "a focus cursor over an ordered list is either `None` or a
valid index `< length`". -/
structure ScrollHandle where
  index : Option Nat
deriving DecidableEq, Repr

/-- `ScrollHandle::new`: no focused element. -/
def ScrollHandle.new : ScrollHandle := ⟨none⟩

/-- Modelled from the spec: `ScrollHandle::focus_previous` — move the cursor
one step back, "clamped at 0" with no wraparound; without a cursor nothing
happens. -/
def ScrollHandle.focus_previous (h : ScrollHandle) : ScrollHandle :=
  match h.index with
  | none => h
  | some i => ⟨some (i - 1)⟩

/-- Modelled from the spec: `ScrollHandle::focus_next` — "the first
`arrow_down` from `None` focus on a non-empty list moves the cursor to `0`";
otherwise move one step forward, "clamped at length−1" with no wraparound. -/
def ScrollHandle.focus_next (h : ScrollHandle) (len : Nat) : ScrollHandle :=
  match h.index with
  | none => ⟨some 0⟩
  | some i => ⟨some (min (i + 1) (len - 1))⟩

/-- `ScrollHandle::get`: the focused element of the list, when the cursor is
set and in bounds. -/
def ScrollHandle.get (h : ScrollHandle) (l : List SearchResult) : Option SearchResult :=
  h.index.bind (fun i => l[i]?)

/-- Modelled from the spec: `MainViewState` (main_view.rs is not part of the
provided sources) — the MainView sub-state, "sub_state ∈ {None, ActionPanel}";
the ActionPanel variant carries its own focus cursor (`focused_action_item`)
over the ordered action-item list, here kept as the cursor plus the item
count the cursor ranges over. -/
inductive MainViewState where
  | mainNone
  | actionPanel (focused_action_item : ScrollHandle) (action_count : Nat)
deriving DecidableEq, Repr

/-- `MainViewState::new`: initial sub-state, `None`. -/
def MainViewState.init : MainViewState := .mainNone

/-- `MainViewState::is_none`. -/
def MainViewState.is_none : MainViewState → Bool
  | .mainNone => true
  | .actionPanel _ _ => false

/-- Modelled from the spec: `MainViewState::initial(sub_state)` resets the
sub-state, "reset sub_state to None". -/
def MainViewState.initial (_sub : MainViewState) : MainViewState := .mainNone

/-- Modelled from the spec: `MainViewState::arrow_up` — "in
sub_state=ActionPanel, the arrow keys instead move the ActionPanel's own
focus cursor under the identical saturating-bounds rule". -/
def MainViewState.arrow_up : MainViewState → MainViewState
  | .mainNone => .mainNone
  | .actionPanel h n => .actionPanel h.focus_previous n

/-- Modelled from the spec: `MainViewState::arrow_down`, the saturating
forward step of the ActionPanel cursor. -/
def MainViewState.arrow_down : MainViewState → MainViewState
  | .mainNone => .mainNone
  | .actionPanel h n =>
    if n ≠ 0 then .actionPanel (h.focus_next n) n else .actionPanel h n

/-- `PluginViewData`: metadata of the screen currently attributed to a plugin. -/
structure PluginViewData where
  top_level_view : Bool
  plugin_id : PluginId
  plugin_name : String
  entrypoint_id : EntrypointId
  entrypoint_name : String
  action_shortcuts : List (String × PhysicalShortcut)
deriving DecidableEq, Repr

/-- `ErrorViewData`: the error screen variants. -/
inductive ErrorViewData where
  | preferenceRequired (plugin_id : PluginId) (entrypoint_id : EntrypointId)
      (plugin_preferences_required : Bool) (entrypoint_preferences_required : Bool)
  | pluginError (plugin_id : PluginId) (entrypoint_id : EntrypointId)
  | backendTimeout
  | unknownError (display : String)
deriving DecidableEq, Repr

/-- The `AppMsg` messages produced by the Focus command handlers of
`state/mod.rs`. -/
inductive AppMsg where
  | hideWindow
  | closePluginView (plugin_id : PluginId)
  | openPluginView (plugin_id : PluginId) (entrypoint_id : EntrypointId)
  | runSearchItemAction (item : SearchResult) (shortcut : Option Nat)
  | onEntrypointAction (widget_id : Option UiWidgetId)
  | promptChanged (text : String)
deriving DecidableEq, Repr

/-- One effect of an `iced::Command`: either an `AppMsg` produced by
`Command::perform`, or the `text_input::focus` side effect. -/
inductive UiEffect where
  | msg (m : AppMsg)
  | focusTextInput (id : Nat)
deriving DecidableEq, Repr

/-- An `iced::Command<AppMsg>`, modelled by its list of effects;
`Command::none` is `[]` and `Command::batch` is concatenation. -/
abbrev Command := List UiEffect

/-- `GlobalState`: the top-level screen selector, "exactly one of
{MainView, PluginView, ErrorView} at any time". -/
inductive GlobalState where
  | mainView (search_field_id : Nat) (prompt : String)
      (focused_search_result : ScrollHandle) (sub_state : MainViewState)
      (pending_plugin_view_data : Option PluginViewData)
      (search_results : List SearchResult)
  | errorView (error_view : ErrorViewData)
  | pluginView (data : PluginViewData)
deriving DecidableEq, Repr

/-- `GlobalState::new(search_field_id)`: the fresh MainView — empty prompt, no
focused search result, sub-state `None`, no pending plugin view, empty
results. -/
def GlobalState.new (search_field_id : Nat) : GlobalState :=
  .mainView search_field_id "" ScrollHandle.new MainViewState.init none []

/-- `GlobalState::new_error`. -/
def GlobalState.new_error (error_view_data : ErrorViewData) : GlobalState :=
  .errorView error_view_data

/-- `GlobalState::new_plugin`. -/
def GlobalState.new_plugin (plugin_view_data : PluginViewData) : GlobalState :=
  .pluginView plugin_view_data

/-- `GlobalState::initial`: replace the previous state with a fresh MainView
built on a newly generated text-input id (`text_input::Id::unique()`, passed
here as the `fresh` oracle), and return the command that focuses the search
input and resets the prompt. -/
def GlobalState.initial (_prev : GlobalState) (fresh : Nat) : GlobalState × Command :=
  (GlobalState.new fresh,
   [UiEffect.focusTextInput fresh, UiEffect.msg (.promptChanged "")])

/-- `Focus::enter` for `GlobalState`. The `todo!()` of the PluginView arm is a
panic, modelled as `Except.error` with the panic's message. -/
def GlobalState.enter : GlobalState → Except String (GlobalState × Command)
  | .mainView sfid prompt focused sub pending results =>
    match sub with
    | .mainNone =>
      match focused.get results with
      | some search_item =>
        .ok (.mainView sfid prompt focused .mainNone pending results,
             [UiEffect.msg (.runSearchItemAction search_item none)])
      | none =>
        .ok (.mainView sfid prompt focused .mainNone pending results, [])
    | .actionPanel focused_action_item n =>
      .ok (.mainView sfid prompt focused (MainViewState.initial (.actionPanel focused_action_item n)) pending results,
           [UiEffect.msg (.onEntrypointAction focused_action_item.index)])
  | .pluginView _ => .error "not yet implemented"
  | .errorView e => .ok (.errorView e, [])

/-- `Focus::escape` for `GlobalState`. `fresh` is the text-input id
`text_input::Id::unique()` would generate for the PluginView top-level arm. -/
def GlobalState.escape (fresh : Nat) : GlobalState → GlobalState × Command
  | .mainView sfid prompt focused sub pending results =>
    match sub with
    | .mainNone =>
      (.mainView sfid prompt focused .mainNone pending results,
       [UiEffect.msg .hideWindow])
    | .actionPanel focused_action_item n =>
      (.mainView sfid prompt focused (MainViewState.initial (.actionPanel focused_action_item n)) pending results,
       [])
  | .pluginView data =>
    if data.top_level_view then
      let r := GlobalState.initial (.pluginView data) fresh
      (r.1, UiEffect.msg (.closePluginView data.plugin_id) :: r.2)
    else
      (.pluginView data,
       [UiEffect.msg (.openPluginView data.plugin_id data.entrypoint_id)])
  | .errorView e => (.errorView e, [UiEffect.msg .hideWindow])

/-- `Focus::arrow_up` for `GlobalState`: on MainView with sub-state `None`,
step the search-result cursor back; on ActionPanel, step the panel cursor;
otherwise a no-op. -/
def GlobalState.arrow_up : GlobalState → GlobalState
  | .mainView sfid prompt focused sub pending results =>
    if sub.is_none then
      .mainView sfid prompt focused.focus_previous sub pending results
    else
      .mainView sfid prompt focused sub.arrow_up pending results
  | .errorView e => .errorView e
  | .pluginView d => .pluginView d

/-- `Focus::arrow_down` for `GlobalState`: on MainView with sub-state `None`
and non-empty results, step the search-result cursor forward; on empty
results a no-op; on ActionPanel, step the panel cursor; otherwise a no-op. -/
def GlobalState.arrow_down : GlobalState → GlobalState
  | .mainView sfid prompt focused sub pending results =>
    if sub.is_none then
      if results.length ≠ 0 then
        .mainView sfid prompt (focused.focus_next results.length) sub pending results
      else
        .mainView sfid prompt focused sub pending results
    else
      .mainView sfid prompt focused sub.arrow_down pending results
  | .errorView e => .errorView e
  | .pluginView d => .pluginView d

/-- A render request the host would forward to `submit_render` for an
entrypoint. -/
structure RenderRequest where
  plugin_id : PluginId
  entrypoint_id : EntrypointId
deriving DecidableEq, Repr

/-- Modelled from the spec: the host-side render gating (its driver is not
part of the provided sources; preferences.rs only exposes the
`plugin_preferences_required` / `entrypoint_preferences_required` capability
ops) — "`preferences_required(plugin|entrypoint)` → boolean; if true, the
host must not proceed to request a render for that entrypoint — it instead
drives GlobalState to ErrorView::PreferenceRequired". -/
def gateRender (plugin_preferences_required entrypoint_preferences_required : Bool)
    (plugin_id : PluginId) (entrypoint_id : EntrypointId) (gs : GlobalState) :
    GlobalState × Option RenderRequest :=
  if plugin_preferences_required || entrypoint_preferences_required then
    (GlobalState.new_error
      (.preferenceRequired plugin_id entrypoint_id
        plugin_preferences_required entrypoint_preferences_required),
     none)
  else
    (gs, some ⟨plugin_id, entrypoint_id⟩)

/-- One item of the full-text search index (`SearchItem` of search.rs). -/
structure SearchItem where
  entrypoint_name : String
  entrypoint_id : String
  plugin_name : String
  plugin_id : String
deriving DecidableEq, Repr

/-- A tantivy schema field handle (`Field`), an index into a document's
field list. -/
abbrev Field := Nat

/-- Modelled from the external tantivy library's contract: a stored document;
each field holds either a text value or a non-text value (`none`). -/
structure Document where
  fields : List (Field × Option String)
deriving DecidableEq, Repr

/-- `Document::get_first` for a field: the first value stored under it. -/
def Document.get_first (d : Document) (f : Field) : Option (Option String) :=
  (d.fields.find? (fun p => p.1 = f)).map Prod.snd

/-- A tantivy document address. -/
structure DocAddress where
  addr : Nat
deriving DecidableEq, Repr

/-- Modelled from the external tantivy library's contract: an opaque parsed
query. -/
structure TantivyQuery where
  raw : String
deriving DecidableEq, Repr

/-- Modelled from the external tantivy library's contract: a `Searcher` over a
committed index snapshot — `hits` lists the addresses of all documents
matching a query, best score first, and `doc` fetches a stored document (a
fallible call). -/
structure Searcher where
  hits : TantivyQuery → List DocAddress
  doc : DocAddress → Except String Document

/-- Modelled from the external tantivy library's contract: a `QueryParser`;
parsing a query string can fail. -/
structure TantivyQueryParser where
  parse : String → Except String TantivyQuery

/-- Modelled from the external tantivy library's contract: the
`TopDocs::with_limit(limit)` collector keeps at most `limit` of the matching
documents, best score first. -/
def topDocsWithLimit (limit : Nat) (hits : List DocAddress) : List DocAddress :=
  hits.take limit

/-- `SearchHandle` of search.rs: a searcher snapshot, the query parser and the
four schema fields. -/
structure SearchHandle where
  searcher : Searcher
  queryParser : TantivyQueryParser
  entrypoint_name : Field
  entrypoint_id : Field
  plugin_name : Field
  plugin_id : Field

/-- The `get_str_field` closure of `SearchHandle::search`: fetch a field's
first value as text; the two `panic!` calls (missing field, non-text field)
are modelled as errors. -/
def get_str_field (d : Document) (f : Field) : Except String String :=
  match d.get_first f with
  | none => .error "there should be a field"
  | some none => .error "field should contain string"
  | some (some s) => .ok s

/-- The per-document body of `SearchHandle::search`'s map: fetch the stored
document at an address and read its four fields as text. -/
def docToItem (h : SearchHandle) (a : DocAddress) : Except String SearchItem := do
  let d ← h.searcher.doc a
  let en ← get_str_field d h.entrypoint_name
  let ei ← get_str_field d h.entrypoint_id
  let pn ← get_str_field d h.plugin_name
  let pid ← get_str_field d h.plugin_id
  return SearchItem.mk en ei pn pid

/-- The `.map(...).collect::<anyhow::Result<Vec<_>>>()` of
`SearchHandle::search`: build one `SearchItem` per retrieved document,
short-circuiting on the first failure. -/
def collectResults (f : DocAddress → Except String SearchItem) :
    List DocAddress → Except String (List SearchItem)
  | [] => .ok []
  | a :: rest =>
    match f a with
    | .error e => .error e
    | .ok x =>
      match collectResults f rest with
      | .error e => .error e
      | .ok xs => .ok (x :: xs)

/-- `SearchHandle::search`: parse the query, collect at most 10 top documents,
and convert each into a `SearchItem`. -/
def SearchHandle.search (h : SearchHandle) (query : String) :
    Except String (List SearchItem) :=
  match h.queryParser.parse query with
  | .error e => .error e
  | .ok q => collectResults (docToItem h) (topDocsWithLimit 10 (h.searcher.hits q))

/-- One operation performed on a `PluginWidgetContainer`: a `replace_view`
call or a `handle_event` call. -/
inductive ContainerOp where
  | replace (container : RootWidget) (images : List (UiWidgetId × Bytes))
      (plugin_id : PluginId) (plugin_name : String)
      (entrypoint_id : EntrypointId) (entrypoint_name : String)
  | event (plugin_id : PluginId) (ev : ComponentWidgetEvent)

/-- Apply one container operation. -/
def applyOp (c : PluginWidgetContainer) : ContainerOp → PluginWidgetContainer
  | .replace cont imgs pid pname eid ename =>
    replace_view c cont imgs pid pname eid ename
  | .event pid ev => (handle_event c pid ev).1

/-- Apply a sequence of container operations, oldest first. -/
def applyOps (c : PluginWidgetContainer) (ops : List ContainerOp) : PluginWidgetContainer :=
  ops.foldl applyOp c

/-- The plugin and entrypoint ids of the most recent `replace` operation of a
sequence, when one exists. -/
def lastReplaceIds : List ContainerOp → Option (PluginId × EntrypointId)
  | [] => none
  | .replace _ _ pid _ eid _ :: rest =>
    match lastReplaceIds rest with
    | some x => some x
    | none => some (pid, eid)
  | .event _ _ :: rest => lastReplaceIds rest

/-! Lemmas about the association-list model of the widget state map. -/

theorem lookupS_eq_none_iff (m : StateMap) (j : UiWidgetId) :
    lookupS m j = none ↔ j ∉ m.map Prod.fst := by
  induction m with
  | nil => simp [lookupS]
  | cons p rest ih =>
    obtain ⟨k, v⟩ := p
    by_cases h : k = j
    · subst h
      simp [lookupS]
    · simp [lookupS, h, ih, Ne.symm h]

theorem lookupS_insertS (m : StateMap) (k j : UiWidgetId) (v : ComponentWidgetState) :
    lookupS (insertS m k v) j = if k = j then some v else lookupS m j := by
  induction m with
  | nil => simp [insertS, lookupS]
  | cons p rest ih =>
    obtain ⟨k', v'⟩ := p
    by_cases h1 : k' = k <;> by_cases h2 : k' = j <;> by_cases h3 : k = j <;>
      simp_all [insertS, lookupS]

theorem lookupS_updateOccupied (m : StateMap) (k j : UiWidgetId)
    (v : ComponentWidgetState) :
    lookupS (updateOccupied m k v) j =
      if k = j then (lookupS m k).map (fun _ => v) else lookupS m j := by
  induction m with
  | nil => simp [updateOccupied, lookupS]
  | cons p rest ih =>
    obtain ⟨k', v'⟩ := p
    by_cases h1 : k' = k <;> by_cases h2 : k' = j <;> by_cases h3 : k = j <;>
      simp_all [updateOccupied, lookupS]

theorem lookupS_mergeOldState (old fresh : StateMap) (j : UiWidgetId)
    (hnd : (old.map Prod.fst).Nodup) :
    lookupS (mergeOldState old fresh) j =
      match lookupS fresh j, lookupS old j with
      | none, _ => none
      | some _, some v => some v
      | some w, none => some w := by
  induction old generalizing fresh with
  | nil => cases h : lookupS fresh j <;> simp [mergeOldState, lookupS, h]
  | cons p rest ih =>
    obtain ⟨k, v⟩ := p
    simp only [List.map_cons, List.nodup_cons] at hnd
    obtain ⟨hk, hrest⟩ := hnd
    have hrk : lookupS rest k = none := (lookupS_eq_none_iff rest k).mpr hk
    have hstep : mergeOldState ((k, v) :: rest) fresh
        = mergeOldState rest (updateOccupied fresh k v) := rfl
    rw [hstep, ih (updateOccupied fresh k v) hrest, lookupS_updateOccupied]
    by_cases h : k = j
    · subst h
      simp only [if_pos rfl, lookupS, hrk]
      cases hf : lookupS fresh k <;> simp
    · simp only [if_neg h, lookupS, h, if_false]

theorem lookupS_foldl_insert_isSome (l : List (UiWidgetId × String)) (m0 : StateMap)
    (j : UiWidgetId) :
    (lookupS (l.foldl (fun m p => insertS m p.1 (defaultState p.2)) m0) j).isSome
      ↔ j ∈ l.map Prod.fst ∨ (lookupS m0 j).isSome := by
  induction l generalizing m0 with
  | nil => simp
  | cons p rest ih =>
    obtain ⟨k, kd⟩ := p
    simp only [List.foldl_cons, List.map_cons, List.mem_cons]
    rw [ih, lookupS_insertS]
    by_cases h : k = j
    · subst h
      simp
    · simp [h, Ne.symm h]

theorem lookupS_foldl_insert_default (l : List (UiWidgetId × String)) (m0 : StateMap)
    (j : UiWidgetId) (v : ComponentWidgetState)
    (hl : lookupS (l.foldl (fun m p => insertS m p.1 (defaultState p.2)) m0) j = some v) :
    (∃ k, (j, k) ∈ l ∧ v = defaultState k) ∨ lookupS m0 j = some v := by
  induction l generalizing m0 with
  | nil => exact Or.inr hl
  | cons p rest ih =>
    obtain ⟨k, kd⟩ := p
    simp only [List.foldl_cons] at hl
    rcases ih _ hl with ⟨k', hmem, hv⟩ | hbase
    · exact Or.inl ⟨k', List.mem_cons_of_mem _ hmem, hv⟩
    · rw [lookupS_insertS] at hbase
      by_cases h : k = j
      · subst h
        rw [if_pos rfl] at hbase
        exact Or.inl ⟨kd, List.mem_cons_self _ _, (Option.some_inj.mp hbase).symm⟩
      · rw [if_neg h] at hbase
        exact Or.inr hbase

theorem create_state_isSome (w : RootWidget) (j : UiWidgetId) :
    (lookupS (create_state w) j).isSome ↔ j ∈ treeIds w := by
  rw [create_state, lookupS_foldl_insert_isSome]
  simp [treeIds, lookupS]

theorem create_state_default (w : RootWidget) (j : UiWidgetId)
    (v : ComponentWidgetState) (h : lookupS (create_state w) j = some v) :
    ∃ k, (j, k) ∈ w.nodes ∧ v = defaultState k := by
  rcases lookupS_foldl_insert_default w.nodes [] j v h with good | bad
  · exact good
  · simp [lookupS] at bad

/-- The property claimed of one reconciliation pass: old values are retained
for surviving ids, ids absent from the new tree are dropped, ids new to the
tree get the default state of their kind, and the resulting key set is
exactly the new tree's id set. -/
def ReconcileProp (old : StateMap) (container : RootWidget) (result : StateMap) : Prop :=
  (∀ id v, lookupS old id = some v → id ∈ treeIds container →
      lookupS result id = some v) ∧
  (∀ id, id ∉ treeIds container → lookupS result id = none) ∧
  (∀ id, id ∈ treeIds container → lookupS old id = none →
      ∃ k, (id, k) ∈ container.nodes ∧ lookupS result id = some (defaultState k)) ∧
  (∀ id, (lookupS result id).isSome ↔ id ∈ treeIds container)

/-- C1: `replace_view` retains the old `WidgetState` for every id present in
both the old state map and the new tree, drops every id absent from the new
tree, gives every new-only id a default `WidgetState`, and leaves the key set
equal to the new tree's id set. -/
theorem replace_view_reconciliation (c : PluginWidgetContainer)
    (container : RootWidget) (images : List (UiWidgetId × Bytes))
    (pid : PluginId) (pname : String) (eid : EntrypointId) (ename : String)
    (hnd : (c.state.map Prod.fst).Nodup) :
    ReconcileProp c.state container
      (replace_view c container images pid pname eid ename).state := by
  have hres : (replace_view c container images pid pname eid ename).state
      = mergeOldState c.state (create_state container) := rfl
  refine ⟨?_, ?_, ?_, ?_⟩
  · intro id v hold hmem
    rw [hres, lookupS_mergeOldState _ _ _ hnd, hold]
    obtain ⟨w, hw⟩ := Option.isSome_iff_exists.mp ((create_state_isSome container id).mpr hmem)
    rw [hw]
  · intro id hmem
    have hfresh : lookupS (create_state container) id = none := by
      rcases hf : lookupS (create_state container) id with _ | w
      · rfl
      · exact absurd ((create_state_isSome container id).mp (by rw [hf]; rfl)) hmem
    rw [hres, lookupS_mergeOldState _ _ _ hnd, hfresh]
  · intro id hmem hold
    obtain ⟨w, hw⟩ := Option.isSome_iff_exists.mp ((create_state_isSome container id).mpr hmem)
    obtain ⟨k, hk, hv⟩ := create_state_default container id w hw
    refine ⟨k, hk, ?_⟩
    rw [hres, lookupS_mergeOldState _ _ _ hnd, hw, hold, ← hv]
  · intro id
    rw [hres, lookupS_mergeOldState _ _ _ hnd, ← create_state_isSome container id]
    rcases lookupS (create_state container) id with _ | w <;>
      rcases lookupS c.state id with _ | v <;> simp

/-- Concrete container for the reconciliation witness: ids 1 and 2 carry
state before the second render. -/
def witnessContainer : PluginWidgetContainer :=
  { PluginWidgetContainer.new with
      state := [(1, .textField "abc"), (2, .checkbox true)] }

/-- Concrete second tree for the reconciliation witness: ids {2, 3, 4}. -/
def witnessTree : RootWidget :=
  .node 2 "checkbox" [.node 3 "text_field" [], .node 4 "list" []]

/-- Witness for C1 at a concrete reconciliation. -/
theorem replace_view_reconciliation_witness :
    ((witnessContainer.state.map Prod.fst).Nodup) ∧
    ReconcileProp witnessContainer.state witnessTree
      (replace_view witnessContainer witnessTree [] ⟨"p"⟩ "P" ⟨"e"⟩ "E").state :=
  ⟨by decide,
   replace_view_reconciliation witnessContainer witnessTree [] ⟨"p"⟩ "P" ⟨"e"⟩ "E"
     (by decide)⟩

/-- C2: an event whose widget id is absent from the state map is a no-op —
the container is unchanged and no outbound event is produced — and every
`handle_event` call produces at most one outbound event. -/
theorem handle_event_miss_noop (c : PluginWidgetContainer) (pid : PluginId)
    (ev : ComponentWidgetEvent)
    (hmiss : lookupS c.state ev.widget_id = none) :
    handle_event c pid ev = (c, none) ∧
    ((handle_event c pid ev).2 = none ∨ ∃ e, (handle_event c pid ev).2 = some e) := by
  constructor
  · unfold handle_event
    rw [hmiss]
  · rcases h : (handle_event c pid ev).2 with _ | e
    · exact Or.inl rfl
    · exact Or.inr ⟨e, rfl⟩

/-- Witness for C2: a click on widget id 9, absent from the concrete
container's state map, changes nothing and emits nothing. -/
theorem handle_event_miss_noop_witness :
    lookupS witnessContainer.state (ComponentWidgetEvent.clicked 9).widget_id = none ∧
    handle_event witnessContainer ⟨"p"⟩ (.clicked 9) = (witnessContainer, none) :=
  ⟨by decide,
   (handle_event_miss_noop witnessContainer ⟨"p"⟩ (.clicked 9) (by decide)).1⟩

/-- C4: `escape` on MainView with sub-state None produces exactly the
hide-window command and leaves the whole state unchanged; on MainView with
the ActionPanel sub-state it resets the sub-state to None and produces no
command at all. -/
theorem escape_main_view (fresh sfid : Nat) (prompt : String)
    (focused : ScrollHandle) (pending : Option PluginViewData)
    (results : List SearchResult) :
    GlobalState.escape fresh
        (.mainView sfid prompt focused .mainNone pending results)
      = (.mainView sfid prompt focused .mainNone pending results,
         [UiEffect.msg .hideWindow]) ∧
    ∀ (fa : ScrollHandle) (n : Nat),
      GlobalState.escape fresh
          (.mainView sfid prompt focused (.actionPanel fa n) pending results)
        = (.mainView sfid prompt focused .mainNone pending results, []) :=
  ⟨rfl, fun _ _ => rfl⟩

/-- One keyboard navigation command of the kind claim C5 ranges over. -/
inductive ArrowCmd where
  | up
  | down

/-- Apply one arrow command to a `GlobalState`. -/
def applyArrow (g : GlobalState) : ArrowCmd → GlobalState
  | .up => g.arrow_up
  | .down => g.arrow_down

/-- Apply a sequence of arrow commands, oldest first. -/
def applyArrows (g : GlobalState) (cmds : List ArrowCmd) : GlobalState :=
  cmds.foldl applyArrow g

theorem arrow_step_main (sfid : Nat) (prompt : String)
    (pending : Option PluginViewData) (results : List SearchResult)
    (h : ScrollHandle) (cmd : ArrowCmd)
    (hinv : ∀ i, h.index = some i → i < results.length) :
    ∃ h' : ScrollHandle,
      applyArrow (.mainView sfid prompt h .mainNone pending results) cmd
        = .mainView sfid prompt h' .mainNone pending results
      ∧ (∀ i, h'.index = some i → i < results.length)
      ∧ (results = [] → h' = h) := by
  cases cmd with
  | up =>
    refine ⟨h.focus_previous, rfl, ?_, ?_⟩
    · intro i hi
      rcases hidx : h.index with _ | j
      · simp [ScrollHandle.focus_previous, hidx] at hi
      · simp [ScrollHandle.focus_previous, hidx] at hi
        have hj := hinv j hidx
        omega
    · intro hres
      rcases hidx : h.index with _ | j
      · simp [ScrollHandle.focus_previous, hidx]
      · have hj := hinv j hidx
        rw [hres] at hj
        simp at hj
  | down =>
    by_cases hlen : results.length ≠ 0
    · refine ⟨h.focus_next results.length, ?_, ?_, ?_⟩
      · simp [applyArrow, GlobalState.arrow_down, MainViewState.is_none, hlen]
      · intro i hi
        rcases hidx : h.index with _ | j
        · simp [ScrollHandle.focus_next, hidx] at hi
          omega
        · simp [ScrollHandle.focus_next, hidx] at hi
          omega
      · intro hres
        rw [hres] at hlen
        simp at hlen
    · push_neg at hlen
      refine ⟨h, ?_, hinv, fun _ => rfl⟩
      simp [applyArrow, GlobalState.arrow_down, MainViewState.is_none, hlen]

theorem arrows_inv (sfid : Nat) (prompt : String)
    (pending : Option PluginViewData) (results : List SearchResult) :
    ∀ (cmds : List ArrowCmd) (h : ScrollHandle),
      (∀ i, h.index = some i → i < results.length) →
      ∃ h' : ScrollHandle,
        applyArrows (.mainView sfid prompt h .mainNone pending results) cmds
          = .mainView sfid prompt h' .mainNone pending results
        ∧ (∀ i, h'.index = some i → i < results.length)
        ∧ (results = [] → h' = h) := by
  intro cmds
  induction cmds with
  | nil => exact fun h hinv => ⟨h, rfl, hinv, fun _ => rfl⟩
  | cons c rest ih =>
    intro h hinv
    obtain ⟨h1, hstep, hinv1, hnoop1⟩ :=
      arrow_step_main sfid prompt pending results h c hinv
    obtain ⟨h2, hrest, hinv2, hnoop2⟩ := ih h1 hinv1
    refine ⟨h2, ?_, hinv2, ?_⟩
    · have : applyArrows (.mainView sfid prompt h .mainNone pending results) (c :: rest)
          = applyArrows (applyArrow (.mainView sfid prompt h .mainNone pending results) c) rest := rfl
      rw [this, hstep, hrest]
    · intro hres
      rw [hnoop2 hres, hnoop1 hres]

/-- The property claimed of arrow navigation on MainView with sub-state None:
any sequence of arrow commands keeps everything but the cursor fixed, keeps
the cursor `None` or a valid index, is a no-op on an empty result list, and a
single `arrow_down` from a `None` cursor on a non-empty list focuses index 0. -/
def ArrowNavProp (sfid : Nat) (prompt : String) (pending : Option PluginViewData)
    (results : List SearchResult) (h : ScrollHandle) : Prop :=
  (∀ cmds : List ArrowCmd, ∃ h' : ScrollHandle,
    applyArrows (.mainView sfid prompt h .mainNone pending results) cmds
      = .mainView sfid prompt h' .mainNone pending results
    ∧ (∀ i, h'.index = some i → i < results.length)
    ∧ (results = [] → h' = h)) ∧
  (h.index = none → results ≠ [] →
    GlobalState.arrow_down (.mainView sfid prompt h .mainNone pending results)
      = .mainView sfid prompt ⟨some 0⟩ .mainNone pending results)

/-- C5: on MainView with sub-state None, arrow navigation saturates at both
ends of the result list, never leaves `[0, length-1]`, is a no-op on an empty
list, and the first `arrow_down` from a `None` cursor focuses index 0. -/
theorem arrow_navigation (sfid : Nat) (prompt : String)
    (pending : Option PluginViewData) (results : List SearchResult)
    (h : ScrollHandle)
    (hinv : ∀ i, h.index = some i → i < results.length) :
    ArrowNavProp sfid prompt pending results h := by
  constructor
  · exact fun cmds => arrows_inv sfid prompt pending results cmds h hinv
  · intro hnone hne
    have hlen : results.length ≠ 0 := by
      intro h0
      exact hne (List.length_eq_zero.mp h0)
    simp [GlobalState.arrow_down, MainViewState.is_none, hlen,
      ScrollHandle.focus_next, hnone]

/-- Concrete three-element result list for the arrow-navigation witness. -/
def witnessResults : List SearchResult :=
  [⟨⟨"p"⟩, ⟨"a"⟩⟩, ⟨⟨"p"⟩, ⟨"b"⟩⟩, ⟨⟨"p"⟩, ⟨"c"⟩⟩]

/-- Witness for C5 at a concrete MainView with three results and no cursor. -/
theorem arrow_navigation_witness :
    (∀ i, ScrollHandle.new.index = some i → i < witnessResults.length) ∧
    ArrowNavProp 0 "" none witnessResults ScrollHandle.new :=
  ⟨fun i hi => by simp [ScrollHandle.new] at hi,
   arrow_navigation 0 "" none witnessResults ScrollHandle.new
     (fun i hi => by simp [ScrollHandle.new] at hi)⟩

/-- C6: `escape` on a top-level PluginView emits the close-plugin-view command
for its plugin id and re-enters the fresh MainView the initializer produces —
empty prompt, empty results, no focused result, sub-state None, the search
input focused. -/
theorem escape_plugin_view_top_level (fresh : Nat) (data : PluginViewData)
    (htop : data.top_level_view = true) :
    GlobalState.escape fresh (.pluginView data)
      = (GlobalState.new fresh,
         [UiEffect.msg (.closePluginView data.plugin_id),
          UiEffect.focusTextInput fresh,
          UiEffect.msg (.promptChanged "")]) ∧
    (GlobalState.escape fresh (.pluginView data)).1
      = (GlobalState.initial (.pluginView data) fresh).1 ∧
    GlobalState.new fresh
      = .mainView fresh "" ⟨none⟩ .mainNone none [] := by
  refine ⟨?_, ?_, rfl⟩ <;>
    simp [GlobalState.escape, htop, GlobalState.initial]

/-- Concrete top-level plugin view for the escape witness. -/
def witnessPluginView : PluginViewData :=
  { top_level_view := true
    plugin_id := ⟨"p"⟩
    plugin_name := "P"
    entrypoint_id := ⟨"e"⟩
    entrypoint_name := "E"
    action_shortcuts := [] }

/-- Witness for C6 at a concrete top-level plugin view. -/
theorem escape_plugin_view_top_level_witness :
    witnessPluginView.top_level_view = true ∧
    GlobalState.escape 7 (.pluginView witnessPluginView)
      = (GlobalState.new 7,
         [UiEffect.msg (.closePluginView witnessPluginView.plugin_id),
          UiEffect.focusTextInput 7,
          UiEffect.msg (.promptChanged "")]) :=
  ⟨rfl, (escape_plugin_view_top_level 7 witnessPluginView rfl).1⟩

/-- C7: when either preferences-required flag is true, the gated render path
produces no render request — `submit_render` is never reached — and the
global state becomes ErrorView::PreferenceRequired carrying the plugin id,
entrypoint id and both flags. -/
theorem gate_render_preference_required (p e : Bool) (pid : PluginId)
    (eid : EntrypointId) (gs : GlobalState) (hreq : p = true ∨ e = true) :
    (gateRender p e pid eid gs).2 = none ∧
    (gateRender p e pid eid gs).1
      = GlobalState.errorView (.preferenceRequired pid eid p e) := by
  have hor : (p || e) = true := by rcases hreq with hh | hh <;> simp [hh]
  simp [gateRender, hor, GlobalState.new_error]

/-- Witness for C7 with the entrypoint flag set. -/
theorem gate_render_preference_required_witness :
    ((false = true) ∨ (true = true)) ∧
    ((gateRender false true ⟨"p"⟩ ⟨"e"⟩ (GlobalState.new 0)).2 = none ∧
     (gateRender false true ⟨"p"⟩ ⟨"e"⟩ (GlobalState.new 0)).1
       = GlobalState.errorView (.preferenceRequired ⟨"p"⟩ ⟨"e"⟩ false true)) :=
  ⟨Or.inr rfl,
   gate_render_preference_required false true ⟨"p"⟩ ⟨"e"⟩ (GlobalState.new 0)
     (Or.inr rfl)⟩

/-- C8: `enter` on any PluginView state hits the `todo!()` branch — modelled
as `Except.error` — so the command is not total over the three variants. -/
theorem enter_plugin_view_panics (data : PluginViewData) :
    GlobalState.enter (.pluginView data) = .error "not yet implemented" := rfl

theorem collectResults_length (f : DocAddress → Except String SearchItem) :
    ∀ (l : List DocAddress) (items : List SearchItem),
      collectResults f l = .ok items → items.length = l.length := by
  intro l
  induction l with
  | nil =>
    intro items hok
    simp only [collectResults] at hok
    cases hok
    rfl
  | cons a rest ih =>
    intro items hok
    simp only [collectResults] at hok
    cases hfa : f a with
    | error e => simp [hfa] at hok
    | ok x =>
      cases hrest : collectResults f rest with
      | error e => simp [hfa, hrest] at hok
      | ok xs =>
        simp only [hfa, hrest] at hok
        cases hok
        simp [ih xs hrest]

/-- C9: `SearchHandle::search` returns at most 10 `SearchItem`s on success,
regardless of the query and of how many documents the index matches. -/
theorem search_at_most_ten (h : SearchHandle) (query : String)
    (items : List SearchItem) (hok : h.search query = .ok items) :
    items.length ≤ 10 := by
  unfold SearchHandle.search at hok
  cases hp : h.queryParser.parse query with
  | error e => simp [hp] at hok
  | ok q =>
    simp only [hp] at hok
    rw [collectResults_length (docToItem h) _ items hok]
    simp [topDocsWithLimit]

/-- Concrete searcher for the search-limit witness: 15 matching documents,
all storing the same four text fields. -/
def witnessSearcher : Searcher :=
  { hits := fun _ => (List.range 15).map DocAddress.mk
    doc := fun _ =>
      .ok ⟨[(0, some "Entry"), (1, some "entry-1"), (2, some "Plug"), (3, some "plug-1")]⟩ }

/-- Concrete search handle for the search-limit witness. -/
def witnessHandle : SearchHandle :=
  { searcher := witnessSearcher
    queryParser := ⟨fun s => .ok ⟨s⟩⟩
    entrypoint_name := 0
    entrypoint_id := 1
    plugin_name := 2
    plugin_id := 3 }

/-- The ten items the witness search returns. -/
def witnessItems : List SearchItem :=
  List.replicate 10 ⟨"Entry", "entry-1", "Plug", "plug-1"⟩

/-- Witness for C9: the witness index matches 15 documents, yet the search
returns exactly 10 items. -/
theorem search_at_most_ten_witness :
    witnessHandle.search "query" = .ok witnessItems ∧ witnessItems.length ≤ 10 :=
  ⟨rfl, search_at_most_ten witnessHandle "query" witnessItems rfl⟩

theorem handle_event_keeps_ids (c : PluginWidgetContainer) (pid : PluginId)
    (ev : ComponentWidgetEvent) :
    (handle_event c pid ev).1.plugin_id = c.plugin_id ∧
    (handle_event c pid ev).1.entrypoint_id = c.entrypoint_id := by
  unfold handle_event
  cases lookupS c.state ev.widget_id <;> simp

theorem applyOps_ids (ops : List ContainerOp) :
    ∀ c : PluginWidgetContainer,
      (applyOps c ops).plugin_id
        = (match lastReplaceIds ops with
           | some x => some x.1
           | none => c.plugin_id) ∧
      (applyOps c ops).entrypoint_id
        = (match lastReplaceIds ops with
           | some x => some x.2
           | none => c.entrypoint_id) := by
  induction ops with
  | nil => exact fun c => ⟨rfl, rfl⟩
  | cons op rest ih =>
    intro c
    cases op with
    | replace cont imgs pid pname eid ename =>
      have hh := ih (replace_view c cont imgs pid pname eid ename)
      have hstep : applyOps c (.replace cont imgs pid pname eid ename :: rest)
          = applyOps (replace_view c cont imgs pid pname eid ename) rest := rfl
      rw [hstep]
      cases hlr : lastReplaceIds rest <;>
        simp_all [lastReplaceIds, replace_view]
    | event pid ev =>
      have hh := ih (handle_event c pid ev).1
      have hkeep := handle_event_keeps_ids c pid ev
      have hstep : applyOps c (.event pid ev :: rest)
          = applyOps (handle_event c pid ev).1 rest := rfl
      rw [hstep]
      cases hlr : lastReplaceIds rest <;>
        simp_all [lastReplaceIds]

/-- C10: on a fresh container `get_plugin_id` / `get_entrypoint_id` hit the
`expect` panic (modelled as `none`); after any operation sequence they return
exactly the ids of the most recent `replace_view`, panicking precisely when
no replace has happened. -/
theorem container_ids_follow_replace (ops : List ContainerOp) :
    get_plugin_id PluginWidgetContainer.new = none ∧
    get_entrypoint_id PluginWidgetContainer.new = none ∧
    get_plugin_id (applyOps PluginWidgetContainer.new ops)
      = (lastReplaceIds ops).map Prod.fst ∧
    get_entrypoint_id (applyOps PluginWidgetContainer.new ops)
      = (lastReplaceIds ops).map Prod.snd := by
  have hh := applyOps_ids ops PluginWidgetContainer.new
  refine ⟨rfl, rfl, ?_, ?_⟩ <;>
    cases hlr : lastReplaceIds ops <;>
      simp_all [get_plugin_id, get_entrypoint_id, PluginWidgetContainer.new]

end Gauntlet
